import Mathlib

/-!
Shallow embedding of the voice-to-pptx backend (`src/main.py`).

The embedding models the Document Assembly Engine (slide binding, exemplar
removal, watermarking) and the Entitlement State Machine (guest fingerprint,
usage counting, free-tier limit, billing webhook) as pure Lean functions.

Modelling conventions:
* A pptx paragraph is reduced to its observable fields: an abstract `style`
  marker (standing for the paragraph-level formatting carried by the XML
  element; reusing a paragraph object preserves it, a freshly created
  paragraph gets the default marker `0`), its `text`, and its indentation
  `level`.
* A text frame always owns at least one paragraph (python-pptx invariant:
  `text_frame.paragraphs[0]` always exists), so it is a head paragraph plus
  the list of the following ones.
* Redis is a group of total maps; an absent counter key reads as `0`
  (Redis `INCR` on a missing key yields 1). TTLs are not modelled (no time).
* Python string operations that the kernel cannot reduce on the library
  versions here (`str.replace`, `in`, `str.lower`) are re-implemented
  character-by-character with the same semantics (`pyReplace`, `pyContains`,
  `pyLower`).
* Exceptions are `Except String` values carrying `str(e)` of the Python
  exception that the corresponding statement raises.
-/

/-! ## Python string primitives -/

/-- One step list of `str.replace`: replace every non-overlapping occurrence of
`pat` by `rep`, scanning left to right.  Structured with a fuel argument
(always called with the list length) so that the kernel can reduce it. -/
def replaceCharsFuel (pat rep : List Char) : Nat → List Char → List Char
  | 0, s => s
  | _ + 1, [] => []
  | fuel + 1, c :: rest =>
    if pat.isPrefixOf (c :: rest) ∧ pat ≠ [] then
      rep ++ replaceCharsFuel pat rep fuel ((c :: rest).drop pat.length)
    else
      c :: replaceCharsFuel pat rep fuel rest

/-- Python `s.replace(pat, rep)`. -/
def pyReplace (s pat rep : String) : String :=
  String.mk (replaceCharsFuel pat.data rep.data s.data.length s.data)

/-- Helper for Python's `pat in s`. -/
def containsChars (pat : List Char) : List Char → Bool
  | [] => pat.isPrefixOf []
  | c :: rest => pat.isPrefixOf (c :: rest) || containsChars pat rest

/-- Python `pat in s` (substring test). -/
def pyContains (s pat : String) : Bool := containsChars pat.data s.data

/-- ASCII lower-casing of one character (enough for the product ids the
webhook inspects; Python `str.lower`). -/
def lowerChar (c : Char) : Char :=
  if 65 ≤ c.toNat ∧ c.toNat ≤ 90 then Char.ofNat (c.toNat + 32) else c

/-- Python `s.lower()`. -/
def pyLower (s : String) : String := String.mk (s.data.map lowerChar)

/-! ## Data model: slides, shapes, outline -/

/-- A paragraph of a text frame (see the modelling conventions above). -/
structure Paragraph where
  style : Nat
  text : String
  level : Nat
deriving DecidableEq

/-- `style` marker handed to paragraphs freshly created by
`text_frame.add_paragraph()` or `shapes.add_textbox(...)`. -/
def newParagraphStyle : Nat := 0

/-- A text frame: head paragraph plus the following paragraphs. -/
structure TextFrame where
  first : Paragraph
  rest : List Paragraph
deriving DecidableEq

/-- All paragraphs of a text frame, in document order. -/
def TextFrame.paragraphs (tf : TextFrame) : List Paragraph := tf.first :: tf.rest

/-- A shape on a slide: its vertical offset (`shape.top`) and, when
`shape.has_text_frame`, its text frame. -/
structure Shape where
  top : Int
  frame : Option TextFrame
deriving DecidableEq

/-- One entry of the submitted outline (pydantic model `Slide`). -/
structure SlideSpec where
  slideNumber : Int
  title : String
  type : String
  format : String
  content : List String
deriving DecidableEq

/-- The submitted outline (pydantic model `SlidesRequest`). -/
structure SlidesRequest where
  templateId : String
  title : String
  slides : List SlideSpec
deriving DecidableEq

/-! ## Slide Binder (`add_slide_content`) -/

/-- `p.text = s` on an existing paragraph: the paragraph element (and hence
its style) is kept, only the text runs are replaced. -/
def setText (p : Paragraph) (s : String) : Paragraph := { p with text := s }

/-- Stable insertion of a shape into a list sorted by ascending `top`
(a later-inserted shape goes after shapes with an equal offset). -/
def insertByTop (x : Shape) : List Shape → List Shape
  | [] => [x]
  | h :: t => if h.top ≤ x.top then h :: insertByTop x t else x :: h :: t

/-- `text_shapes.sort(key=lambda s: s.top)`: Python's stable ascending sort. -/
def sortByTop (l : List Shape) : List Shape :=
  l.foldl (fun acc x => insertByTop x acc) []

/-- `[shape for shape in slide.shapes if shape.has_text_frame]` sorted by
`top`, reduced to the text frames themselves. -/
def sortedFrames (slide : List Shape) : List TextFrame :=
  (sortByTop (slide.filter fun s => s.frame.isSome)).filterMap (·.frame)

/-- The bullet paragraphs written by the `bullets` branch of
`add_slide_content`: the first content element reuses the existing first
paragraph (`p.text = bullet` then `p.level = 0`), every further element is a
fresh `add_paragraph()`.  An empty content list leaves the body frame as it
is at that point. -/
def bindBullets (body : TextFrame) (content : List String) : TextFrame :=
  match content with
  | [] => body
  | c0 :: cs =>
    { first := { style := body.first.style, text := c0, level := 0 },
      rest := cs.map fun c => { style := newParagraphStyle, text := c, level := 0 } }

/-- Core of `add_slide_content` acting on the sorted text frames of the
slide (`text_shapes[0]` is the title shape, `text_shapes[1]` the
body/subtitle shape); returns the frames after binding, or the `str(e)` of
the Python exception the source raises. -/
def bindTextFrames (frames : List TextFrame) (sd : SlideSpec) : Except String (List TextFrame) :=
  if sd.type = "title" then
    match frames with
    | [] => .ok []
    | tf0 :: restFrames =>
      let tf0' := { tf0 with first := setText tf0.first sd.title }
      match restFrames, sd.content with
      | tf1 :: rest2, c0 :: _ =>
        .ok (tf0' :: { tf1 with first := setText tf1.first c0 } :: rest2)
      | _, _ => .ok (tf0' :: restFrames)
  else
    match frames with
    | [] => .ok []
    | tf0 :: restFrames =>
      let tf0' := { tf0 with first := setText tf0.first sd.title }
      match restFrames with
      | [] => .ok [tf0']
      | tf1 :: rest2 =>
        -- `while len(content_frame.paragraphs) > 1: ...remove(...)`
        let body := { tf1 with rest := ([] : List Paragraph) }
        if sd.format = "paragraph" then
          match sd.content with
          | [] => .error "list index out of range"
          | c0 :: _ =>
            .ok (tf0' :: { body with
              first := { style := body.first.style, text := c0, level := 0 } } :: rest2)
        else
          .ok (tf0' :: bindBullets body sd.content :: rest2)

/-- `add_slide_content(slide, slide_data)`.  The function only reads and
writes the text frames of the slide, addressed through the by-`top` sorted
order; the embedding therefore returns the slide's sorted text frames after
binding (non-text shapes are untouched by the source). -/
def add_slide_content (slide : List Shape) (sd : SlideSpec) : Except String (List TextFrame) :=
  bindTextFrames (sortedFrames slide) sd

/-! ## Guest fingerprint (`create_guest_id`): MD5 over UTF-8 bytes -/

/-- UTF-8 encoding of one code point. -/
def utf8Char (n : Nat) : List Nat :=
  if n < 128 then [n]
  else if n < 2048 then [192 + n / 64, 128 + n % 64]
  else if n < 65536 then [224 + n / 4096, 128 + (n / 64) % 64, 128 + n % 64]
  else [240 + n / 262144, 128 + (n / 4096) % 64, 128 + (n / 64) % 64, 128 + n % 64]

/-- `s.encode()`: the UTF-8 bytes of a string. -/
def strBytes (s : String) : List Nat :=
  (s.data.map fun c => utf8Char c.toNat).flatten

/-- 2^32, the word modulus of MD5. -/
def m32 : Nat := 4294967296

/-- Addition modulo 2^32. -/
def add32 (a b : Nat) : Nat := (a + b) % m32

/-- Bitwise complement on 32-bit words. -/
def not32 (a : Nat) : Nat := (m32 - 1) - a % m32

/-- Left rotation of a 32-bit word by `s` bits (`0 < s < 32`). -/
def rotl32 (x s : Nat) : Nat := x % m32 * 2 ^ s % m32 + x % m32 / 2 ^ (32 - s)

/-- MD5 round function F. -/
def md5F (b c d : Nat) : Nat := Nat.lor (Nat.land b c) (Nat.land (not32 b) d)

/-- MD5 round function G. -/
def md5G (b c d : Nat) : Nat := Nat.lor (Nat.land d b) (Nat.land (not32 d) c)

/-- MD5 round function H. -/
def md5H (b c d : Nat) : Nat := Nat.xor b (Nat.xor c d)

/-- MD5 round function I. -/
def md5I (b c d : Nat) : Nat := Nat.xor c (Nat.lor b (not32 d))

/-- The 64 MD5 sine constants. -/
def md5K : List Nat :=
  [0xd76aa478, 0xe8c7b756, 0x242070db, 0xc1bdceee,
   0xf57c0faf, 0x4787c62a, 0xa8304613, 0xfd469501,
   0x698098d8, 0x8b44f7af, 0xffff5bb1, 0x895cd7be,
   0x6b901122, 0xfd987193, 0xa679438e, 0x49b40821,
   0xf61e2562, 0xc040b340, 0x265e5a51, 0xe9b6c7aa,
   0xd62f105d, 0x02441453, 0xd8a1e681, 0xe7d3fbc8,
   0x21e1cde6, 0xc33707d6, 0xf4d50d87, 0x455a14ed,
   0xa9e3e905, 0xfcefa3f8, 0x676f02d9, 0x8d2a4c8a,
   0xfffa3942, 0x8771f681, 0x6d9d6122, 0xfde5380c,
   0xa4beea44, 0x4bdecfa9, 0xf6bb4b60, 0xbebfbc70,
   0x289b7ec6, 0xeaa127fa, 0xd4ef3085, 0x04881d05,
   0xd9d4d039, 0xe6db99e5, 0x1fa27cf8, 0xc4ac5665,
   0xf4292244, 0x432aff97, 0xab9423a7, 0xfc93a039,
   0x655b59c3, 0x8f0ccc92, 0xffeff47d, 0x85845dd1,
   0x6fa87e4f, 0xfe2ce6e0, 0xa3014314, 0x4e0811a1,
   0xf7537e82, 0xbd3af235, 0x2ad7d2bb, 0xeb86d391]

/-- The 64 MD5 per-round rotation amounts. -/
def md5S : List Nat :=
  [7, 12, 17, 22, 7, 12, 17, 22, 7, 12, 17, 22, 7, 12, 17, 22,
   5, 9, 14, 20, 5, 9, 14, 20, 5, 9, 14, 20, 5, 9, 14, 20,
   4, 11, 16, 23, 4, 11, 16, 23, 4, 11, 16, 23, 4, 11, 16, 23,
   6, 10, 15, 21, 6, 10, 15, 21, 6, 10, 15, 21, 6, 10, 15, 21]

/-- A little-endian 32-bit word from four bytes. -/
def leWord (bytes : List Nat) : Nat :=
  bytes.getD 0 0 + 256 * bytes.getD 1 0 + 65536 * bytes.getD 2 0 +
    16777216 * bytes.getD 3 0

/-- The sixteen message words of a 64-byte chunk. -/
def chunkWords (chunk : List Nat) : List Nat :=
  (List.range 16).map fun j => leWord ((chunk.drop (4 * j)).take 4)

/-- One of the 64 MD5 mixing steps. -/
def md5Mix (w : List Nat) (st : Nat × Nat × Nat × Nat) (i : Nat) : Nat × Nat × Nat × Nat :=
  match st with
  | (a, b, c, d) =>
    let fg : Nat × Nat :=
      if i < 16 then (md5F b c d, i)
      else if i < 32 then (md5G b c d, (5 * i + 1) % 16)
      else if i < 48 then (md5H b c d, (3 * i + 5) % 16)
      else (md5I b c d, 7 * i % 16)
    let f2 := add32 (add32 (add32 fg.1 a) (md5K.getD i 0)) (w.getD fg.2 0)
    (d, add32 b (rotl32 f2 (md5S.getD i 0)), b, c)

/-- Compression of one 64-byte chunk into the running state. -/
def md5Chunk (st : Nat × Nat × Nat × Nat) (chunk : List Nat) : Nat × Nat × Nat × Nat :=
  match ((List.range 64).foldl (md5Mix (chunkWords chunk)) st), st with
  | (a, b, c, d), (a0, b0, c0, d0) => (add32 a0 a, add32 b0 b, add32 c0 c, add32 d0 d)

/-- `k` little-endian bytes of `v`. -/
def leBytes : Nat → Nat → List Nat
  | 0, _ => []
  | k + 1, v => v % 256 :: leBytes k (v / 256)

/-- MD5 padding: `0x80`, zeros to 56 mod 64, and the bit length. -/
def md5Pad (msg : List Nat) : List Nat :=
  msg ++ 128 :: List.replicate ((119 - msg.length % 64) % 64) 0 ++
    leBytes 8 (8 * msg.length % 18446744073709551616)

/-- Split a byte list into 64-byte chunks (fuel-driven for reducibility). -/
def chunks64Fuel : Nat → List Nat → List (List Nat)
  | 0, _ => []
  | _ + 1, [] => []
  | fuel + 1, x :: xs => (x :: xs).take 64 :: chunks64Fuel fuel ((x :: xs).drop 64)

/-- The sixteen digest bytes of a byte message. -/
def md5Digest (msg : List Nat) : List Nat :=
  let padded := md5Pad msg
  match (chunks64Fuel padded.length padded).foldl md5Chunk
      (0x67452301, 0xefcdab89, 0x98badcfe, 0x10325476) with
  | (a, b, c, d) => leBytes 4 a ++ leBytes 4 b ++ leBytes 4 c ++ leBytes 4 d

/-- One lowercase hexadecimal digit. -/
def hexChar (n : Nat) : Char :=
  if n < 10 then Char.ofNat (48 + n) else Char.ofNat (87 + n)

/-- `hashlib.md5(s.encode()).hexdigest()`. -/
def md5hex (s : String) : String :=
  String.mk ((md5Digest (strBytes s)).foldr
    (fun b acc => hexChar (b / 16) :: hexChar (b % 16) :: acc) [])

/-- The string hashed by `create_guest_id`: the client host with any
`"::ffff:"` stripped, a colon, and the first 100 characters of the
`user-agent` header. -/
def fingerprintInput (host ua : String) : String :=
  pyReplace host "::ffff:" "" ++ ":" ++ ua.take 100

/-- `create_guest_id(request)`, as a function of `request.client.host` and
the `user-agent` header (already defaulted to `""` by the caller). -/
def create_guest_id (host ua : String) : String :=
  md5hex (fingerprintInput host ua)

/-! ## Document Assembler (`generate_pptx` core loop) -/

/-- The loaded template (`Presentation(template_path)`): the contents of its
two exemplar slides (`prs.slides[0]`, `prs.slides[1]`) and, for each, the
shapes that a slide freshly created from that exemplar's `slide_layout` by
`prs.slides.add_slide` carries. -/
structure Template where
  titleEx : List TextFrame
  contentEx : List TextFrame
  titleLayout : List Shape
  contentLayout : List Shape

/-- An in-progress presentation: the slide-id order list (`_sldIdLst`)
paired with each slide's bound text frames, and the next fresh slide id. -/
structure Pres where
  slides : List (Nat × List TextFrame)
  nextId : Nat
deriving DecidableEq

/-- `template = title_template if slide_type == "title" else content_template`:
the layout shapes a new slide for this spec starts from. -/
def layoutFor (tmpl : Template) (sd : SlideSpec) : List Shape :=
  if sd.type = "title" then tmpl.titleLayout else tmpl.contentLayout

/-- The `for slide_data in slides_data["slides"]` loop: pick the exemplar
matching the spec's type, append a slide built from its layout, bind it.  A
binder exception aborts the whole loop. -/
def assembleLoop (tmpl : Template) : List SlideSpec → Pres → Except String Pres
  | [], prs => .ok prs
  | sd :: rest, prs =>
    match add_slide_content (layoutFor tmpl sd) sd with
    | .error e => .error e
    | .ok bound =>
      assembleLoop tmpl rest
        { slides := prs.slides ++ [(prs.nextId, bound)], nextId := prs.nextId + 1 }

/-- The freshly loaded presentation: the two exemplar slides, ids 0 and 1. -/
def initialPres (tmpl : Template) : Pres :=
  { slides := [(0, tmpl.titleEx), (1, tmpl.contentEx)], nextId := 2 }

/-- Slide assembly followed by `del r_id_list[1]; del r_id_list[0]`. -/
def assemble (tmpl : Template) (specs : List SlideSpec) : Except String Pres :=
  (assembleLoop tmpl specs (initialPres tmpl)).map fun prs =>
    { prs with slides := (prs.slides.eraseIdx 1).eraseIdx 0 }

/-- `add_watermark(prs, text)`: a fresh bottom text box on every slide whose
single paragraph carries the watermark text. -/
def add_watermark (prs : Pres) (text : String) : Pres :=
  { prs with
    slides := prs.slides.map fun s =>
      (s.1, s.2 ++ [⟨⟨newParagraphStyle, text, 0⟩, []⟩]) }

/-! ## Entitlement Store and request context -/

/-- One history entry (`ppt_info`). -/
structure HistoryEntry where
  filename : String
  template : String
  created : Nat
  url : String
  is_pro : Bool
deriving DecidableEq

/-- The Redis state the code touches: guest counters (`guest:*`, absent key
reads 0), pro records (`pro:*`), and history lists (`history:*`). -/
structure Store where
  guest : String → Nat
  pro : String → Option String
  history : String → List HistoryEntry

/-- The request headers the code reads. -/
structure Headers where
  rcUserId : Option String
  authorization : Option String
  userAgent : Option String
deriving DecidableEq

/-- `request.state` after the middleware (attributes absent unless set;
`getattr` defaults are applied at the read sites). -/
structure ReqState where
  is_pro : Bool := false
  guest_count : Option Nat := none
  guest_id : Option String := none
deriving DecidableEq

/-- The 402 body returned by the middleware on a quota hit. -/
structure LimitBody where
  status : String
  used : Nat
  limit : Nat
  guest_id : String
  upgrade_url : String
  message : String
deriving DecidableEq

/-- Outcome of the middleware for a generation request. -/
inductive MWResult
  | limited (body : LimitBody)
  | proceed (st : ReqState)
deriving DecidableEq

/-- `FREE_LIMIT = 1`. -/
def FREE_LIMIT : Nat := 1

/-- The `pro:{rc_user_id}` value the middleware sees, with Python truthiness
folded in: `""` when the header is absent/empty or the record is absent. -/
def proLookup (s : Store) (hdr : Headers) : String :=
  let rc := hdr.rcUserId.getD ""
  if rc ≠ "" then (s.pro ("pro:" ++ rc)).getD "" else ""

/-- The `pro_guest_limiter` middleware on a POST `/api/generate-pptx`
request: pro check, guest counter increment, and the 402 short-circuit.
Returns the outcome and the store after the request. -/
def pro_guest_limiter (store : Option Store) (hdr : Headers) (host : String) :
    MWResult × Option Store :=
  match store with
  | none => (.proceed {}, none)
  | some s =>
    if proLookup s hdr ≠ "" then
      (.proceed { is_pro := true }, some s)
    else
      let gid := create_guest_id host (hdr.userAgent.getD "")
      let gkey := "guest:" ++ gid
      let count := s.guest gkey + 1
      let s' := { s with guest := fun k => if k = gkey then count else s.guest k }
      if count > FREE_LIMIT then
        (.limited
          { status := "limit_reached", used := count, limit := FREE_LIMIT,
            guest_id := gid, upgrade_url := "/upgrade",
            message := "You've created " ++ toString FREE_LIMIT ++
              " amazing presentations!" }, some s')
      else
        (.proceed { is_pro := false, guest_count := some count, guest_id := some gid },
          some s')

/-! ## `generate_pptx` endpoint -/

/-- The JSON body `generate_pptx` returns. -/
inductive GenResponse
  | success (downloadUrl : String) (is_pro is_guest : Bool) (guest_count : Nat)
      (user_id : String) (show_upgrade watermark : Bool)
  | errorResp (message : String)
deriving DecidableEq

/-- What a call to `generate_pptx` produces: the response body, the files
written under `presentations/` during the call, and the store afterwards. -/
structure GenOutcome where
  resp : GenResponse
  saved : List (String × Pres)
  store : Option Store

/-- The watermark label. -/
def watermarkText : String := "Made with Voice-to-PPT Free"

/-- The `generate_pptx` handler body, after the middleware has produced
`st`;  `store` is the module-level client `r`, `repo`/`slate` model the
`template_files` table with its `"slate"` fallback, `now` is
`int(time.time())`. -/
def generate_pptx (store : Option Store) (repo : String → Option Template)
    (slate : Template) (hdr : Headers) (st : ReqState) (req : SlidesRequest)
    (now : Nat) : GenOutcome :=
  let is_pro := st.is_pro
  let guest_count := if is_pro then 0 else st.guest_count.getD 0
  let is_guest := !is_pro && (hdr.authorization.getD "" = "")
  let tmpl := (repo req.templateId).getD slate
  match assemble tmpl req.slides with
  | .error e => { resp := .errorResp e, saved := [], store := store }
  | .ok prs0 =>
    let rc := hdr.rcUserId.getD ""
    let user_id := if rc ≠ "" then rc else st.guest_id.getD ("guest-" ++ toString now)
    let prs := if is_guest && decide (guest_count ≥ FREE_LIMIT) then
        add_watermark prs0 watermarkText
      else prs0
    let filename := "presentation-" ++ user_id.take 8 ++ "-" ++ req.templateId ++
      "-" ++ toString now ++ ".pptx"
    let path := "presentations/" ++ filename
    match store with
    | none =>
      -- `r.lpush(...)` with `r = None` raises, caught by the outer handler
      { resp := .errorResp "'NoneType' object has no attribute 'lpush'",
        saved := [(path, prs)], store := none }
    | some s =>
      let hkey := "history:" ++ user_id
      let entry : HistoryEntry :=
        { filename := filename, template := req.templateId, created := now,
          url := "/download/" ++ filename, is_pro := is_pro }
      let maxHistory := if is_pro then 50 else 3
      let hist := (entry :: s.history hkey).take maxHistory
      let s' := { s with history := fun k => if k = hkey then hist else s.history k }
      { resp := .success ("/download/" ++ filename) is_pro is_guest guest_count
          user_id (is_guest && decide (guest_count ≥ FREE_LIMIT))
          (is_guest && decide (guest_count ≥ FREE_LIMIT)),
        saved := [(path, prs)], store := some s' }

/-- Result of a full POST `/api/generate-pptx` call. -/
inductive CallResult
  | limited (body : LimitBody) (store : Option Store)
  | handled (out : GenOutcome)

/-- A full POST `/api/generate-pptx` call: middleware, then the handler on
the store the middleware left behind. -/
def handleGenerate (store : Option Store) (repo : String → Option Template)
    (slate : Template) (hdr : Headers) (host : String) (req : SlidesRequest)
    (now : Nat) : CallResult :=
  match pro_guest_limiter store hdr host with
  | (.limited b, s') => .limited b s'
  | (.proceed st, s') => .handled (generate_pptx s' repo slate hdr st req now)

/-! ## Billing webhook -/

/-- The `event` object of the webhook payload, with the `.get` defaults of
the source (`type`/`app_user_id` may be absent, `product_id` defaults). -/
structure WebhookEvent where
  type : Option String
  app_user_id : Option String
  product_id : String
deriving DecidableEq

/-- Result of a webhook call: the 401 raised on a bad credential, or the
JSON status body. -/
inductive WebhookOut
  | unauthorized
  | reply (status : String)
deriving DecidableEq

/-- The pro records (`pro:*` keys) of the store. -/
def ProMap := String → Option String

/-- `r.set`-style update of one key. -/
def setKey (m : ProMap) (key v : String) : ProMap :=
  fun k => if k = key then some v else m k

/-- `r.delete` of one key. -/
def delKey (m : ProMap) (key : String) : ProMap :=
  fun k => if k = key then none else m k

/-- `verify_revenuecat_signature(auth_header)` as a function of the
configured `REVENUECAT_WEBHOOK_SECRET` and the received header value. -/
def verify_revenuecat_signature (secret : Option String) (auth_header : String) : Bool :=
  if auth_header = "" then true
  else if secret.getD "" = "" then true
  else pyReplace auth_header "Bearer " "" = secret.getD ""

/-- The `revenuecat_webhook` handler: credential check, then the event
dispatch over the pro records.  `ev?` is `payload.get("event", {})` with an
empty/absent event as `none`.

The module-level client `r` is the synchronous `redis.from_url` client (it
is used without `await` everywhere else: `r.get`, `r.incr`, `client.ping`),
but this handler `await`s every redis call.  `await expr` first evaluates
`expr` — the redis call runs and performs its side effect — and then
awaiting the plain `int`/`bool`/`bytes`/`None` result raises `TypeError`,
which the handler's `except Exception` turns into `{"status": "error"}`.
Hence:
* `INITIAL_PURCHASE`: `await r.exists(...)` — the read runs, the `await`
  raises before the branch body; nothing is ever written;
* `RENEWAL`: `r.setex(...)` performs the write, then the `await` raises;
* `CANCELLATION`: `r.get(...)` reads, the `await` raises; nothing is ever
  deleted;
* `EXPIRATION`: `r.delete(...)` performs the deletion, then the `await`
  raises;
* an unrecognized type touches no redis call and falls through to
  `{"status": "ok"}`; `TEST` returns before any redis call.
(`verify_revenuecat_signature` is an `async def`, so awaiting it at the top
of the handler is fine.) -/
def revenuecat_webhook (secret : Option String) (auth : String)
    (store : Option ProMap) (ev? : Option WebhookEvent) : WebhookOut × Option ProMap :=
  if !verify_revenuecat_signature secret auth then (.unauthorized, store)
  else
    match store with
    | none => (.reply "redis_unavailable", none)
    | some m =>
      match ev? with
      | none => (.reply "invalid_payload", some m)
      | some ev =>
        let et := ev.type.getD ""
        let uid := ev.app_user_id.getD ""
        if et = "" ∨ uid = "" then (.reply "missing_fields", some m)
        else
          let key := "pro:" ++ uid
          if et = "TEST" then (.reply "test_success", some m)
          else if et = "INITIAL_PURCHASE" then
            -- `await r.exists(pro_key)` raises `TypeError` after the read
            (.reply "error", some m)
          else if et = "RENEWAL" then
            -- `r.setex(...)` writes, then the `await` raises `TypeError`
            (.reply "error", some (setKey m key "subscription"))
          else if et = "CANCELLATION" then
            -- `await r.get(pro_key)` raises `TypeError` after the read
            (.reply "error", some m)
          else if et = "EXPIRATION" then
            -- `r.delete(...)` deletes, then the `await` raises `TypeError`
            (.reply "error", some (delKey m key))
          else (.reply "ok", some m)

/-! ## Helper characterizations used by the theorems -/

/-- The per-spec bound slides of an outline, in order (the slide each loop
iteration appends, when every binding succeeds). -/
def bindAll (tmpl : Template) : List SlideSpec → Except String (List (List TextFrame))
  | [] => .ok []
  | sd :: rest =>
    match add_slide_content (layoutFor tmpl sd) sd with
    | .error e => .error e
    | .ok b => (bindAll tmpl rest).map (b :: ·)

/-- Unfolding of `assembleLoop` on a success: the produced slides are the
input slides followed by the per-spec bound slides paired with consecutive
fresh ids. -/
theorem assembleLoop_ok (tmpl : Template) :
    ∀ (specs : List SlideSpec) (prs out : Pres),
      assembleLoop tmpl specs prs = .ok out →
      ∃ bs, bindAll tmpl specs = .ok bs ∧
        out.slides = prs.slides ++ (List.range' prs.nextId specs.length).zip bs ∧
        bs.length = specs.length := by
  intro specs
  induction specs with
  | nil =>
    intro prs out h
    simp only [assembleLoop] at h
    cases h
    exact ⟨[], rfl, by simp, rfl⟩
  | cons sd rest ih =>
    intro prs out h
    simp only [assembleLoop] at h
    cases hb : add_slide_content (layoutFor tmpl sd) sd with
    | error e => rw [hb] at h; cases h
    | ok b =>
      rw [hb] at h
      obtain ⟨bs, h1, h2, h3⟩ := ih _ _ h
      refine ⟨b :: bs, ?_, ?_, by simp [h3]⟩
      · simp only [bindAll, hb, h1, Except.map]
      · simp only [h2, List.length_cons, List.range'_succ, List.zip_cons_cons]
        simp [List.append_assoc]

/-! ## Claims -/

/-- C1: assembling an outline with N slide specs from any template yields a
document with exactly N slides — the per-spec bound slides, in outline
order, carrying the fresh slide ids 2, 3, … — and neither of the template's
two original exemplar slides (ids 0 and 1) remains in the final document. -/
theorem claim1_assembled_document_shape (tmpl : Template) (specs : List SlideSpec)
    (prs : Pres) (h : assemble tmpl specs = .ok prs) :
    ∃ bs, bindAll tmpl specs = .ok bs ∧
      prs.slides = (List.range' 2 specs.length).zip bs ∧
      prs.slides.length = specs.length ∧
      ∀ s ∈ prs.slides, s.1 ≠ 0 ∧ s.1 ≠ 1 := by
  unfold assemble at h
  cases hl : assembleLoop tmpl specs (initialPres tmpl) with
  | error e => rw [hl] at h; cases h
  | ok out =>
    rw [hl] at h
    obtain ⟨bs, h1, h2, h3⟩ := assembleLoop_ok tmpl specs _ _ hl
    refine ⟨bs, h1, ?_⟩
    cases h
    dsimp only
    simp only [initialPres] at h2
    have hslides : ((out.slides.eraseIdx 1).eraseIdx 0) =
        (List.range' 2 specs.length).zip bs := by
      rw [h2]; rfl
    refine ⟨hslides, ?_, ?_⟩
    · rw [hslides, List.length_zip, List.length_range', h3, Nat.min_self]
    · intro s hs
      rw [hslides] at hs
      have hmem := List.of_mem_zip hs
      have h4 := List.mem_range'.mp hmem.1
      omega

/-- Template used by the witness of C1: two exemplar layouts with a title
shape above a body shape each. -/
def c1WitTemplate : Template :=
  { titleEx := [⟨⟨9, "donor title", 0⟩, []⟩],
    contentEx := [⟨⟨9, "donor content", 0⟩, []⟩],
    titleLayout := [⟨0, some ⟨⟨7, "ex title", 0⟩, []⟩⟩, ⟨50, some ⟨⟨8, "ex sub", 0⟩, []⟩⟩],
    contentLayout := [⟨0, some ⟨⟨5, "ex head", 0⟩, []⟩⟩, ⟨60, some ⟨⟨6, "ex body", 0⟩, []⟩⟩] }

/-- Outline used by the witness of C1. -/
def c1WitSpecs : List SlideSpec :=
  [⟨1, "Intro", "title", "bullets", ["hello"]⟩,
   ⟨2, "Point", "content", "bullets", ["a", "b"]⟩]

/-- Document the witness of C1 expects `assemble` to produce. -/
def c1WitPres : Pres :=
  { slides := [(2, [⟨⟨7, "Intro", 0⟩, []⟩, ⟨⟨8, "hello", 0⟩, []⟩]),
               (3, [⟨⟨5, "Point", 0⟩, []⟩, ⟨⟨6, "a", 0⟩, [⟨0, "b", 0⟩]⟩])],
    nextId := 4 }

/-- Witness for C1 at a concrete outline of two specs. -/
theorem claim1_witness :
    ∃ bs, bindAll c1WitTemplate c1WitSpecs = .ok bs ∧
      c1WitPres.slides = (List.range' 2 c1WitSpecs.length).zip bs ∧
      c1WitPres.slides.length = c1WitSpecs.length ∧
      ∀ s ∈ c1WitPres.slides, s.1 ≠ 0 ∧ s.1 ≠ 1 :=
  claim1_assembled_document_shape c1WitTemplate c1WitSpecs c1WitPres (by rfl)

/-- C2: binding a content-kind spec into an exemplar whose sorted text
shapes include a body shape dispatches on the format tag.  With format
`"bullets"` and content `[a, b, c]` the body ends with exactly the three
paragraphs `a`, `b`, `c` in order, the first reusing the exemplar body's
pre-existing first paragraph (its style marker), the others appended fresh;
with format `"paragraph"` the body ends with exactly one paragraph carrying
the first content element, however many paragraphs the exemplar body had. -/
theorem claim2_format_dispatch (tf0 tf1 : TextFrame) (rest : List TextFrame)
    (n : Int) (t : String) :
    (∀ a b c : String,
      bindTextFrames (tf0 :: tf1 :: rest) ⟨n, t, "content", "bullets", [a, b, c]⟩ =
        .ok ({ tf0 with first := setText tf0.first t } ::
          ⟨⟨tf1.first.style, a, 0⟩,
           [⟨newParagraphStyle, b, 0⟩, ⟨newParagraphStyle, c, 0⟩]⟩ :: rest)) ∧
    ∀ (c0 : String) (cs : List String),
      bindTextFrames (tf0 :: tf1 :: rest) ⟨n, t, "content", "paragraph", c0 :: cs⟩ =
        .ok ({ tf0 with first := setText tf0.first t } ::
          ⟨⟨tf1.first.style, c0, 0⟩, []⟩ :: rest) :=
  ⟨fun _ _ _ => rfl, fun _ _ => rfl⟩

/-- C3 counterexample: a `title`-kind spec bound into an exemplar slide
whose subtitle shape has a stale second paragraph keeps that paragraph —
the exemplar's text `"STALE"` is still on the slide after binding, so the
per-spec removal the claim states does not happen for title-kind specs. -/
theorem claim3_counterexample :
    add_slide_content
        [⟨0, some ⟨⟨1, "Template Title", 0⟩, []⟩⟩,
         ⟨100, some ⟨⟨2, "Template Subtitle", 0⟩, [⟨3, "STALE", 0⟩]⟩⟩]
        ⟨1, "My Title", "title", "bullets", ["My Subtitle"]⟩ =
      .ok [⟨⟨1, "My Title", 0⟩, []⟩, ⟨⟨2, "My Subtitle", 0⟩, [⟨3, "STALE", 0⟩]⟩] ∧
    (⟨3, "STALE", 0⟩ : Paragraph) ∈
      (⟨⟨2, "My Subtitle", 0⟩, [⟨3, "STALE", 0⟩]⟩ : TextFrame).paragraphs :=
  ⟨rfl, by decide⟩

/-- C3 amended: for a spec whose kind is not `"title"`, bound into an
exemplar with at least two sorted text shapes, every paragraph beyond the
first that existed in the exemplar's body text container is removed before
new text is written — after a successful binding the body's paragraphs
beyond the first are exactly the freshly written bullet paragraphs (none
for `"paragraph"` format).  For `"title"`-kind specs no such removal
happens (see the counterexample). -/
theorem claim3_body_tail_removed (tf0 tf1 : TextFrame) (rest : List TextFrame)
    (sd : SlideSpec) (out : List TextFrame)
    (htype : sd.type ≠ "title")
    (h : bindTextFrames (tf0 :: tf1 :: rest) sd = .ok out) :
    ∃ body, out = { tf0 with first := setText tf0.first sd.title } :: body :: rest ∧
      body.rest = (if sd.format = "paragraph" then []
        else (sd.content.drop 1).map fun c => ⟨newParagraphStyle, c, 0⟩) := by
  unfold bindTextFrames at h
  rw [if_neg htype] at h
  dsimp only at h
  by_cases hf : sd.format = "paragraph"
  · rw [if_pos hf] at h
    cases hc : sd.content with
    | nil => rw [hc] at h; cases h
    | cons c0 cs =>
      rw [hc] at h
      cases h
      exact ⟨_, rfl, by rw [if_pos hf]⟩
  · rw [if_neg hf] at h
    cases h
    refine ⟨_, rfl, ?_⟩
    rw [if_neg hf]
    cases sd.content <;> simp [bindBullets]

/-- Witness for the amended C3 at a concrete content-kind bullets spec. -/
theorem claim3_witness :
    ∃ body,
      [⟨⟨4, "Head", 0⟩, ([] : List Paragraph)⟩,
       ⟨⟨5, "x", 0⟩, [⟨0, "y", 0⟩]⟩] =
        { (⟨⟨4, "old head", 0⟩, []⟩ : TextFrame) with
          first := setText (⟨4, "old head", 0⟩ : Paragraph)
            (SlideSpec.title ⟨2, "Head", "content", "bullets", ["x", "y"]⟩) } ::
          body :: ([] : List TextFrame) ∧
      body.rest = (if SlideSpec.format ⟨2, "Head", "content", "bullets", ["x", "y"]⟩ =
          "paragraph" then []
        else ((SlideSpec.content ⟨2, "Head", "content", "bullets", ["x", "y"]⟩).drop 1).map
          fun c => ⟨newParagraphStyle, c, 0⟩) :=
  claim3_body_tail_removed ⟨⟨4, "old head", 0⟩, []⟩ ⟨⟨5, "stale 1", 0⟩, [⟨6, "stale 2", 0⟩]⟩
    [] ⟨2, "Head", "content", "bullets", ["x", "y"]⟩ _ (by decide) (by rfl)

/-- Definitional unfolding of `pro_guest_limiter` on a live store. -/
theorem pro_guest_limiter_some (s : Store) (hdr : Headers) (host : String) :
    pro_guest_limiter (some s) hdr host =
      (if proLookup s hdr ≠ "" then
        (MWResult.proceed { is_pro := true }, some s)
      else
        let gid := create_guest_id host (hdr.userAgent.getD "")
        let gkey := "guest:" ++ gid
        let count := s.guest gkey + 1
        let s' : Store := { s with guest := fun k => if k = gkey then count else s.guest k }
        if count > FREE_LIMIT then
          (MWResult.limited
            { status := "limit_reached", used := count, limit := FREE_LIMIT,
              guest_id := gid, upgrade_url := "/upgrade",
              message := "You've created " ++ toString FREE_LIMIT ++
                " amazing presentations!" }, some s')
        else
          (MWResult.proceed
            { is_pro := false, guest_count := some count, guest_id := some gid },
            some s')) := rfl

/-- C4: a request classified as guest whose post-increment counter exceeds
`FREE_LIMIT` is short-circuited by the middleware with the 402
payment-required body — status `"limit_reached"` carrying the new count,
the limit, the fingerprint and the upgrade reference — assembly never runs
(the call never reaches the handler), and the stored counter stays at or
above the limit, so every later guest call of the same fingerprint is
rejected the same way until the counter resets or the identity turns pro.
The case `s.guest gkey = FREE_LIMIT` is exactly the call whose increment
first reaches `FREE_LIMIT + 1`. -/
theorem claim4_guest_limit_short_circuit (s : Store) (repo : String → Option Template)
    (slate : Template) (hdr : Headers) (host : String) (req : SlidesRequest) (now : Nat)
    (hguest : proLookup s hdr = "")
    (hcount : s.guest ("guest:" ++ create_guest_id host (hdr.userAgent.getD "")) ≥ FREE_LIMIT) :
    ∃ s', handleGenerate (some s) repo slate hdr host req now =
        .limited
          { status := "limit_reached",
            used := s.guest ("guest:" ++ create_guest_id host (hdr.userAgent.getD "")) + 1,
            limit := FREE_LIMIT,
            guest_id := create_guest_id host (hdr.userAgent.getD ""),
            upgrade_url := "/upgrade",
            message := "You've created " ++ toString FREE_LIMIT ++
              " amazing presentations!" } (some s') ∧
      s'.guest ("guest:" ++ create_guest_id host (hdr.userAgent.getD "")) ≥ FREE_LIMIT := by
  unfold handleGenerate
  rw [pro_guest_limiter_some, if_neg (fun hne => hne hguest)]
  dsimp only
  rw [if_pos (show s.guest ("guest:" ++ create_guest_id host (hdr.userAgent.getD "")) + 1 >
    FREE_LIMIT by omega)]
  refine ⟨_, rfl, ?_⟩
  dsimp only
  rw [if_pos rfl]
  omega

/-- Witness for C4: a guest whose counter already sits at the free limit. -/
theorem claim4_witness :
    ∃ s', handleGenerate
        (some { guest := fun _ => 1, pro := fun _ => none, history := fun _ => [] })
        (fun _ => none) ⟨[], [], [], []⟩ ⟨none, none, none⟩ "203.0.113.9"
        ⟨"slate", "Deck", []⟩ 1700000000 =
        .limited
          { status := "limit_reached",
            used := Store.guest
              { guest := fun _ => 1, pro := fun _ => none, history := fun _ => [] }
              ("guest:" ++ create_guest_id "203.0.113.9"
                ((Headers.userAgent ⟨none, none, none⟩).getD "")) + 1,
            limit := FREE_LIMIT,
            guest_id := create_guest_id "203.0.113.9"
              ((Headers.userAgent ⟨none, none, none⟩).getD ""),
            upgrade_url := "/upgrade",
            message := "You've created " ++ toString FREE_LIMIT ++
              " amazing presentations!" } (some s') ∧
      s'.guest ("guest:" ++ create_guest_id "203.0.113.9"
        ((Headers.userAgent ⟨none, none, none⟩).getD "")) ≥ FREE_LIMIT :=
  claim4_guest_limit_short_circuit _ _ _ _ _ _ _ rfl (by exact Nat.le_refl 1)

/-- C5: a request carrying an external user id whose entitlement record is
a `subscription` or `lifetime` tier is classified paid by the middleware
(`is_pro` set, store untouched), the guest counters are unchanged across
the whole request, and the persisted document is exactly the un-watermarked
assembly output — no watermark pass is applied. -/
theorem claim5_paid_skips_counter_and_watermark (s : Store)
    (repo : String → Option Template) (slate : Template) (hdr : Headers)
    (host : String) (req : SlidesRequest) (now : Nat) (uid v : String)
    (hrc : hdr.rcUserId = some uid) (huid : uid ≠ "")
    (hpro : s.pro ("pro:" ++ uid) = some v)
    (htier : v = "subscription" ∨ v = "lifetime") :
    pro_guest_limiter (some s) hdr host = (.proceed { is_pro := true }, some s) ∧
    ∃ out s2, handleGenerate (some s) repo slate hdr host req now = .handled out ∧
      out.store = some s2 ∧ s2.guest = s.guest ∧
      out.saved.map Prod.snd =
        (match assemble ((repo req.templateId).getD slate) req.slides with
         | .ok p => [p]
         | .error _ => []) := by
  have hne : proLookup s hdr ≠ "" := by
    unfold proLookup
    rw [hrc]
    dsimp only [Option.getD]
    rw [if_pos huid, hpro]
    dsimp only [Option.getD]
    rcases htier with h | h <;> subst h <;> decide
  refine ⟨by rw [pro_guest_limiter_some, if_pos hne], ?_⟩
  unfold handleGenerate
  rw [pro_guest_limiter_some, if_pos hne]
  dsimp only
  unfold generate_pptx
  dsimp only
  cases ha : assemble ((repo req.templateId).getD slate) req.slides with
  | error e => exact ⟨_, s, rfl, rfl, rfl, rfl⟩
  | ok p => exact ⟨_, _, rfl, rfl, rfl, rfl⟩

/-- Witness for C5: a lifetime user generating an empty outline. -/
theorem claim5_witness :
    pro_guest_limiter
        (some { guest := fun _ => 5, pro := fun _ => some "lifetime", history := fun _ => [] })
        ⟨some "user42", none, none⟩ "198.51.100.2" =
      (.proceed { is_pro := true },
        some { guest := fun _ => 5, pro := fun _ => some "lifetime", history := fun _ => [] }) ∧
    ∃ out s2, handleGenerate
        (some { guest := fun _ => 5, pro := fun _ => some "lifetime", history := fun _ => [] })
        (fun _ => none) ⟨[], [], [], []⟩ ⟨some "user42", none, none⟩ "198.51.100.2"
        ⟨"swiss", "Deck", []⟩ 1700000000 = .handled out ∧
      out.store = some s2 ∧
      s2.guest = Store.guest
        { guest := fun _ => 5, pro := fun _ => some "lifetime", history := fun _ => [] } ∧
      out.saved.map Prod.snd =
        (match assemble (((fun _ => none : String → Option Template)
            (SlidesRequest.templateId ⟨"swiss", "Deck", []⟩)).getD ⟨[], [], [], []⟩)
            (SlidesRequest.slides ⟨"swiss", "Deck", []⟩) with
         | .ok p => [p]
         | .error _ => []) :=
  claim5_paid_skips_counter_and_watermark _ _ _ _ _ _ _ "user42" "lifetime"
    rfl (by decide) rfl (Or.inr rfl)

/-- C6: on the code as written, the billing transitions the claim relies
on never run at all: for every well-formed `INITIAL_PURCHASE` or
`CANCELLATION` event that passes the credential check, the handler replies
`{"status": "error"}` (the `await` on the synchronous redis client raises
`TypeError` inside the `try`) and the pro records are returned unchanged —
no record is ever created by a purchase and none is ever deleted by a
cancellation, so the claimed lifecycle outcomes hold only vacuously. -/
theorem claim6_webhook_transitions_never_run (secret : Option String)
    (auth : String) (m : ProMap) (uid prod : String)
    (hv : verify_revenuecat_signature secret auth = true) (huid : uid ≠ "") :
    revenuecat_webhook secret auth (some m)
        (some ⟨some "INITIAL_PURCHASE", some uid, prod⟩) = (.reply "error", some m) ∧
    revenuecat_webhook secret auth (some m)
        (some ⟨some "CANCELLATION", some uid, prod⟩) = (.reply "error", some m) := by
  constructor
  all_goals
    unfold revenuecat_webhook
    rw [hv]
    rw [if_neg (show ¬((!true) = true) by decide)]
    dsimp only [Option.getD]
    rw [if_neg (fun h => h.elim (fun h1 => absurd h1 (by decide)) huid)]
  · rw [if_neg (by decide), if_pos rfl]
  · rw [if_neg (by decide), if_neg (by decide), if_neg (by decide), if_pos rfl]

/-- Witness for C6: the claim's own event sequence for `"alice"` with the
lifetime product `"lifetime_149"` at an empty store — both calls reply
`error` and leave the (empty) pro records untouched, so no `lifetime`
record ever exists. -/
theorem claim6_webhook_witness :
    revenuecat_webhook none "" (some fun _ => none)
        (some ⟨some "INITIAL_PURCHASE", some "alice", "lifetime_149"⟩) =
      (.reply "error", some fun _ => none) ∧
    revenuecat_webhook none "" (some fun _ => none)
        (some ⟨some "CANCELLATION", some "alice", "lifetime_149"⟩) =
      (.reply "error", some fun _ => none) :=
  claim6_webhook_transitions_never_run none "" (fun _ => none) "alice"
    "lifetime_149" rfl (by decide)


/-- C7 (divergence witness): with the entitlement store unreachable at
process start (`r = None`), a generation request that assembles fine still
does not return a success payload: the unconditional `r.lpush` history
write raises, the outer handler catches it, and the caller receives the
error shape — although the document file was already saved to disk.  The
claimed degrade-to-success behaviour does not happen. -/
theorem claim7_store_down_returns_error :
    handleGenerate none (fun _ => none) ⟨[], [], [], []⟩ ⟨none, none, none⟩ ""
        ⟨"slate", "Deck", []⟩ 0 =
      .handled
        { resp := .errorResp "'NoneType' object has no attribute 'lpush'",
          saved := [("presentations/presentation-guest-0-slate-0.pptx", ⟨[], 2⟩)],
          store := none } := rfl

/-- C8 (divergence witness): with a webhook secret configured
(`REVENUECAT_WEBHOOK_SECRET = "topsecret"`) and the `Authorization` header
absent (empty), the credential check passes — `if not auth_header: return
True` fires before the secret is ever compared — so the event is not
rejected with 401; and on a `RENEWAL` event the entitlement state even
changes (`r.setex` performs its write before the `await` raises), although
the reply is the error shape.  Both halves of the claimed rejection (401,
no state change) fail on this input. -/
theorem claim8_missing_credential_accepted :
    verify_revenuecat_signature (some "topsecret") "" = true ∧
    (revenuecat_webhook (some "topsecret") "" (some fun _ => none)
        (some ⟨some "RENEWAL", some "alice", ""⟩)).1 ≠ .unauthorized ∧
    ((revenuecat_webhook (some "topsecret") "" (some fun _ => none)
        (some ⟨some "RENEWAL", some "alice", ""⟩)).2.map
      fun m => m "pro:alice") = some (some "subscription") :=
  ⟨rfl, by decide, rfl⟩

/-- C9 amended: the guest fingerprint is deterministic — it is a pure
function of the caller pair, and more precisely depends only on the host
with every `"::ffff:"` occurrence stripped together with the first 100
characters of the user agent.  It is NOT fully discriminating: pairs that
differ in either component but agree on that processed data collide (see
the counterexample). -/
theorem claim9_fingerprint_determined (h1 u1 h2 u2 : String)
    (hh : pyReplace h1 "::ffff:" "" = pyReplace h2 "::ffff:" "")
    (hu : u1.take 100 = u2.take 100) :
    create_guest_id h1 u1 = create_guest_id h2 u2 := by
  unfold create_guest_id fingerprintInput
  rw [hh, hu]

/-- Witness for the amended C9: the same processed pair gives the same id. -/
theorem claim9_witness :
    create_guest_id "::ffff:10.0.0.7" "agent" = create_guest_id "10.0.0.7" "agent" :=
  claim9_fingerprint_determined "::ffff:10.0.0.7" "agent" "10.0.0.7" "agent"
    (by decide) rfl

set_option maxRecDepth 8192 in
/-- C9 counterexample: two caller pairs that differ in the network origin
yield the SAME fingerprint, because `create_guest_id` strips the IPv6
`"::ffff:"` mapping markup before hashing — the claimed injectivity in
each component is false. -/
theorem claim9_counterexample :
    create_guest_id "::ffff:192.0.2.6" "Mozilla/5.0" =
      create_guest_id "192.0.2.6" "Mozilla/5.0" ∧
    ("::ffff:192.0.2.6" : String) ≠ "192.0.2.6" :=
  ⟨congrArg md5hex (by decide), by decide⟩

/-- A content-kind spec with `paragraph` format and empty content makes the
binder read `content[0]` and raise, whenever the slide has a body shape. -/
theorem add_slide_content_paragraph_empty_fails (layout : List Shape) (sd : SlideSpec)
    (htype : sd.type ≠ "title") (hfmt : sd.format = "paragraph")
    (hcontent : sd.content = []) (hlen : 2 ≤ (sortedFrames layout).length) :
    add_slide_content layout sd = .error "list index out of range" := by
  unfold add_slide_content bindTextFrames
  rw [if_neg htype]
  cases hsf : sortedFrames layout with
  | nil => rw [hsf] at hlen; simp at hlen
  | cons tf0 tl =>
    cases tl with
    | nil => rw [hsf] at hlen; simp at hlen
    | cons tf1 tl2 =>
      dsimp only
      rw [if_pos hfmt, hcontent]

/-- A spec whose binding raises makes the whole assembly loop raise. -/
theorem assembleLoop_fails (tmpl : Template) :
    ∀ (specs : List SlideSpec) (prs : Pres) (sd : SlideSpec), sd ∈ specs →
      add_slide_content (layoutFor tmpl sd) sd = .error "list index out of range" →
      ∃ e, assembleLoop tmpl specs prs = .error e := by
  intro specs
  induction specs with
  | nil => intro prs sd h; cases h
  | cons x rest ih =>
    intro prs sd hmem hfail
    simp only [assembleLoop]
    cases hx : add_slide_content (layoutFor tmpl x) x with
    | error e => exact ⟨e, rfl⟩
    | ok b =>
      rcases List.mem_cons.mp hmem with he | he
      · subst he; rw [hx] at hfail; cases hfail
      · exact ih _ sd he hfail

/-- C10: a generation request whose outline contains a content-kind spec
with `paragraph` format and an empty content list fails as a whole when the
content layout offers a body shape: the binder raises `IndexError`, the
outer handler catches it, the endpoint returns the structured error shape,
and no file is persisted. -/
theorem claim10_paragraph_empty_content_errors (store : Option Store)
    (repo : String → Option Template) (slate : Template) (hdr : Headers)
    (host : String) (req : SlidesRequest) (now : Nat) (st : ReqState)
    (s' : Option Store) (sd : SlideSpec)
    (hmw : pro_guest_limiter store hdr host = (.proceed st, s'))
    (hmem : sd ∈ req.slides) (htype : sd.type ≠ "title")
    (hfmt : sd.format = "paragraph") (hcontent : sd.content = [])
    (hlen : 2 ≤ (sortedFrames ((repo req.templateId).getD slate).contentLayout).length) :
    ∃ msg, handleGenerate store repo slate hdr host req now =
      .handled { resp := .errorResp msg, saved := [], store := s' } := by
  have hfail : add_slide_content (layoutFor ((repo req.templateId).getD slate) sd) sd =
      .error "list index out of range" := by
    unfold layoutFor
    rw [if_neg htype]
    exact add_slide_content_paragraph_empty_fails _ _ htype hfmt hcontent hlen
  obtain ⟨e, hloop⟩ := assembleLoop_fails _ req.slides
    (initialPres ((repo req.templateId).getD slate)) sd hmem hfail
  have hassem : assemble ((repo req.templateId).getD slate) req.slides = .error e := by
    unfold assemble
    rw [hloop]
    rfl
  refine ⟨e, ?_⟩
  unfold handleGenerate
  rw [hmw]
  dsimp only
  unfold generate_pptx
  dsimp only
  rw [hassem]

/-- Witness for C10: the store is down (middleware passes through), the
default template's content layout has two text shapes, and the outline's
only spec is a paragraph-format content spec with empty content. -/
theorem claim10_witness :
    ∃ msg, handleGenerate none (fun _ => none)
        ⟨[], [], [],
         [⟨0, some ⟨⟨1, "h", 0⟩, []⟩⟩, ⟨10, some ⟨⟨2, "b", 0⟩, []⟩⟩]⟩
        ⟨none, none, none⟩ "" ⟨"x", "Deck", [⟨1, "T", "content", "paragraph", []⟩]⟩ 0 =
      .handled { resp := .errorResp msg, saved := [], store := none } :=
  claim10_paragraph_empty_content_errors none (fun _ => none)
    ⟨[], [], [], [⟨0, some ⟨⟨1, "h", 0⟩, []⟩⟩, ⟨10, some ⟨⟨2, "b", 0⟩, []⟩⟩]⟩
    ⟨none, none, none⟩ "" ⟨"x", "Deck", [⟨1, "T", "content", "paragraph", []⟩]⟩ 0
    {} none ⟨1, "T", "content", "paragraph", []⟩ rfl (by decide) (by decide) rfl rfl
    (by decide)
